import Mathlib

/-!
Verification development for the asynchronous music-generation polling client
(Shaltear9/Ai-Soundtrack-Generator).

The repository drives long-running music-generation jobs over HTTP: submit a
job, then poll a status endpoint until a terminal state is reached.  Three
polling variants exist in the source:

* `sunoService.ts`   — `pollForMusic`, WAV record-info endpoint, 120 attempts,
  a bounded grace window after a SUCCESS with no audio URL (namespace `Suno`);
* `geminiService.ts` (second half of the file) — schema-tolerant
  `pollForMusic`, 60 attempts, flexible track extraction (namespace `Gem`);
* `udioService.ts`   — `pollForTrack`, 30 attempts (namespace `UdioApi`).

The network is modelled as an oracle `Nat → Response`: the response the status
endpoint would deliver on each attempt.  JavaScript truthiness on strings
(empty string is falsy) is modelled by `truthy` / `jsOr` on `Option String`;
an absent (`undefined`/`null`) field is `none`.  Thrown `Error`s become
inductive error values; the `catch` blocks of the sources are reflected in
which step outcomes propagate (in `udioService.ts` the catch-all swallows
every error thrown inside the loop body, so the FAILED branch there continues
polling — modelled exactly as the code behaves).
-/

/-- JS truthiness of an optional string field: `undefined`, `null` and the
empty string are falsy. -/
def truthy : Option String → Bool
  | some s => s != ""
  | none => false

/-- JS `a || b` on optional string fields. -/
def jsOr (a b : Option String) : Option String :=
  if truthy a then a else b

/-- JS `a || b` where the fallback is a plain (non-optional) string. -/
def jsOrStr (a : Option String) (b : String) : String :=
  match a with
  | some s => if s = "" then b else s
  | none => b

/-- The `SunoTask` interface of `types.ts`: the element type of the lists
returned by the polling functions. -/
structure SunoTask where
  id : String
  status : String
  audio_url : Option String := none
  image_url : Option String := none
  title : Option String := none
  model_name : Option String := none
  prompt : Option String := none
deriving DecidableEq

namespace Suno

/-! ### `sunoService.ts` — `pollForMusic` over the WAV record-info endpoint -/

/-- `data.response` of `WavRecordInfoResponse`. -/
structure WavResponse where
  audioWavUrl : String
deriving DecidableEq

/-- `data` of `WavRecordInfoResponse` (fields the loop reads).  `successFlag`
is read defensively in the source (`data.successFlag || UNKNOWN`), so it is
optional here; `response` may be absent (`data.response?.audioWavUrl`). -/
structure WavData where
  taskId : String
  response : Option WavResponse := none
  successFlag : Option String := none
  errorMessage : Option String := none
deriving DecidableEq

/-- Outcome of one poll attempt at the HTTP layer: either `!response.ok`
(carrying the status code and body text), or a parsed JSON body with its
business `code`, `msg` and optional `data`. -/
inductive PollResponse where
  | httpError (status : Nat) (text : String)
  | body (code : Nat) (msg : String) (data : Option WavData)
deriving DecidableEq

/-- `const MAX_ATTEMPTS = 120`. -/
def MAX_ATTEMPTS : Nat := 120

/-- `data.successFlag || UNKNOWN` (the UNKNOWN literal is quoted in the source). -/
def statusOf (d : WavData) : String :=
  jsOrStr d.successFlag "UNKNOWN"

/-- The truthy check `data.response?.audioWavUrl`: the usable audio URL, if
any. -/
def usableUrl (d : WavData) : Option String :=
  match d.response with
  | some r => if r.audioWavUrl = "" then none else some r.audioWavUrl
  | none => none

/-- The fatal errors `pollForMusic` can throw (each constructor is one
`throw new Error(...)` site that the catch block rethrows). -/
inductive PollErr where
  | repeatedHttp (status : Nat) (text : String)
  | repeatedCode (code : Nat) (msg : String)
  | taskFailed (errorMessage : Option String)
  | completeNoAudio
  | timeout (lastKnownData : Option WavData)
deriving DecidableEq

/-- Outcome of one iteration of the loop body: continue with updated
`consecutiveErrors` / `lastKnownData`, return tracks, or throw fatally. -/
inductive StepOut where
  | next (consecutiveErrors : Nat) (lastKnownData : Option WavData)
  | ret (tasks : List SunoTask)
  | fatal (e : PollErr)
deriving DecidableEq

/-- One iteration of the `pollForMusic` loop body (attempt index `i`,
current `consecutiveErrors` `c`, current `lastKnownData` `lk`), translated
from `sunoService.ts` lines 92-177. -/
def step (i c : Nat) (lk : Option WavData) (r : PollResponse) : StepOut :=
  match r with
  | .httpError status text =>
      if c + 1 ≥ 5 then .fatal (.repeatedHttp status text)
      else .next (c + 1) lk
  | .body code msg data =>
      if code ≠ 200 then
        if c + 1 ≥ 5 then .fatal (.repeatedCode code msg)
        else .next (c + 1) lk
      else
        match data with
        | none => .next 0 none
        | some d =>
          let status := statusOf d
          if status = "SUCCESS" then
            match usableUrl d with
            | some url =>
                .ret [{ id := d.taskId, status := "SUCCESS",
                        audio_url := some url, title := some "Generated Track" }]
            | none =>
                if i < MAX_ATTEMPTS - 5 then .next 0 (some d)
                else .fatal .completeNoAudio
          else if status = "CREATE_TASK_FAILED" ∨ status = "GENERATE_WAV_FAILED"
                  ∨ status = "CALLBACK_EXCEPTION" then
            .fatal (.taskFailed d.errorMessage)
          else
            .next 0 (some d)

/-- Result of a whole `pollForMusic` run, recording how many attempts were
performed before it resolved or rejected. -/
inductive PollResult where
  | success (tasks : List SunoTask) (attempts : Nat)
  | failure (e : PollErr) (attempts : Nat)
deriving DecidableEq

/-- The `for` loop of `pollForMusic`, with explicit fuel (`fuel` attempts
remain; `i` is the current attempt index, so `i + fuel = MAX_ATTEMPTS` on
every reachable call).  Exhausted fuel is the timeout `throw` after the
loop. -/
def go (resps : Nat → PollResponse) : Nat → Nat → Nat → Option WavData → PollResult
  | 0, i, _, lk => .failure (.timeout lk) i
  | fuel + 1, i, c, lk =>
      match step i c lk (resps i) with
      | .next c2 lk2 => go resps fuel (i + 1) c2 lk2
      | .ret tasks => .success tasks (i + 1)
      | .fatal e => .failure e (i + 1)

/-- `pollForMusic` of `sunoService.ts`, as a function of the response
oracle. -/
def pollForMusic (resps : Nat → PollResponse) : PollResult :=
  go resps MAX_ATTEMPTS 0 0 none

/-- A transiently failing attempt: non-2xx HTTP status, or business code
other than 200. -/
def isTransient : PollResponse → Bool
  | .httpError _ _ => true
  | .body code _ _ => code != 200

/-- A structurally valid response (HTTP 2xx, code 200, data present) whose
status is `PENDING`. -/
def isPending : PollResponse → Bool
  | .body code _ (some d) => code == 200 && statusOf d == "PENDING"
  | _ => false

/-- A structurally valid response reporting `SUCCESS` with no usable audio
URL. -/
def isSuccessNoAudio : PollResponse → Bool
  | .body code _ (some d) =>
      code == 200 && statusOf d == "SUCCESS" && (usableUrl d).isNone
  | _ => false

/-- The `data` carried by a body response, if any. -/
def dataOf : PollResponse → Option WavData
  | .body _ _ d => d
  | .httpError _ _ => none

/-- Is the error one of the two repeated-upstream-failure throw sites? -/
def isRepeatedErr : PollErr → Bool
  | .repeatedHttp _ _ => true
  | .repeatedCode _ _ => true
  | _ => false

/-- Did the run reject with one of the two repeated-upstream-failure
errors? -/
def isRepeatedFailure : PollResult → Bool
  | .failure e _ => isRepeatedErr e
  | .success _ _ => false

/-- Number of attempts the run used. -/
def attemptsOf : PollResult → Nat
  | .success _ n => n
  | .failure _ n => n

/-- Did the run reject with a timeout whose carried `lastKnownData` reports
status `PENDING`? -/
def isTimeoutPending : PollResult → Bool
  | .failure (.timeout (some d)) _ => statusOf d == "PENDING"
  | _ => false

/-- The ` Error: ...` suffix of the timeout message (lines 184-186). -/
def timeoutErrPart (d : WavData) : String :=
  match d.errorMessage with
  | some m => if m = "" then "" else " Error: " ++ m
  | none => ""

/-- The diagnostic message built after the loop exhausts its budget
(lines 181-187); `600` is `Math.round(MAX_ATTEMPTS * INTERVAL / 1000)`. -/
def timeoutMessage (lk : Option WavData) : String :=
  "Timeout waiting for music generation after " ++ toString MAX_ATTEMPTS ++
    " attempts (600 seconds)." ++
    (match lk with
     | some d => " Last known status: " ++ (statusOf d ++ ("." ++ timeoutErrPart d))
     | none => "")

end Suno

namespace Gem

/-! ### `geminiService.ts` (second half) — schema-tolerant `pollForMusic` -/

/-- The flexible `TrackData` interface: every field the loop reads, all
optional (absent fields are `none`; `metadataPrompt` stands for
`item.metadata?.prompt`). -/
structure TrackData where
  id : Option String := none
  audio_url : Option String := none
  audioUrl : Option String := none
  audio_src : Option String := none
  url : Option String := none
  audio : Option String := none
  image_url : Option String := none
  imageUrl : Option String := none
  image_src : Option String := none
  image : Option String := none
  title : Option String := none
  prompt : Option String := none
  metadataPrompt : Option String := none
deriving DecidableEq

/-- `const getAudioUrl = (t) => t.audio_url || t.audioUrl || t.audio_src || t.url || t.audio`. -/
def getAudioUrl (t : TrackData) : Option String :=
  jsOr t.audio_url (jsOr t.audioUrl (jsOr t.audio_src (jsOr t.url t.audio)))

/-- `const getImageUrl = (t) => t.image_url || t.imageUrl || t.image_src || t.image`. -/
def getImageUrl (t : TrackData) : Option String :=
  jsOr t.image_url (jsOr t.imageUrl (jsOr t.image_src t.image))

/-- The structural shape of `data.response` once any JSON string has been
dealt with: a scalar/unusable value (`undefined`, `null`, a number, an
unparsed string, ...), an object with optional `data`-array and
`clips`-array members (a present non-array member behaves exactly like an
absent one under the `Array.isArray` guards of the source, so only present-and-array
members are `some`), or a bare array. -/
inductive RespShape where
  | scalar
  | obj (dataMember : Option (List TrackData)) (clips : Option (List TrackData))
  | arr (tracks : List TrackData)
deriving DecidableEq

/-- `data.response` as delivered: either already structured, or a
JSON-encoded string together with what `JSON.parse` would yield on it
(`none` = parse failure, in which case the string is kept and behaves as a
scalar). -/
inductive RawResp where
  | direct (v : RespShape)
  | strEnc (parsed : Option RespShape)
deriving DecidableEq

/-- Lines 312-319: if `data.response` is a string, parse it; on failure keep
the string (which then matches none of the structural guards). -/
def resolveResp : Option RawResp → RespShape
  | none => .scalar
  | some (.direct v) => v
  | some (.strEnc (some v)) => v
  | some (.strEnc none) => .scalar

/-- `responseObj?.data` when it is an array. -/
def respDataMember : RespShape → Option (List TrackData)
  | .obj (some ts) _ => some ts
  | _ => none

/-- `Array.isArray(responseObj)`. -/
def respAsArr : RespShape → Option (List TrackData)
  | .arr ts => some ts
  | _ => none

/-- `responseObj?.clips` when it is an array. -/
def respClips : RespShape → Option (List TrackData)
  | .obj _ (some ts) => some ts
  | _ => none

/-- Lines 321-332: the `if`/`else if` chain choosing where the track list
lives.  `dd` is `data.data` when present and an array. -/
def extractTracks (resp : RespShape) (dd : Option (List TrackData)) : List TrackData :=
  match respDataMember resp with
  | some ts => ts
  | none =>
    match respAsArr resp with
    | some ts => ts
    | none =>
      match dd with
      | some ts => ts
      | none =>
        match respClips resp with
        | some ts => ts
        | none => []

/-- `res.data` of `TaskStatusResponse`: the fields the loop reads. -/
structure TaskInfoData where
  status : Option String := none
  response : Option RawResp := none
  dataMember : Option (List TrackData) := none
  errorMessage : Option String := none
deriving DecidableEq

/-- JS `String.prototype.toUpperCase`, as a character-wise map (the status
strings involved are plain ASCII). -/
def toUpperCase (s : String) : String :=
  String.mk (s.data.map Char.toUpper)

/-- `(data.status || UNKNOWN).toUpperCase()` (the UNKNOWN literal is quoted in the source). -/
def statusOf (d : TaskInfoData) : String :=
  toUpperCase (jsOrStr d.status "UNKNOWN")

/-- Outcome of one poll attempt at the HTTP layer. -/
inductive PollResponse where
  | httpError (status : Nat) (text : String)
  | body (code : Nat) (msg : String) (data : Option TaskInfoData)
deriving DecidableEq

/-- `const MAX_ATTEMPTS = 60`. -/
def MAX_ATTEMPTS : Nat := 60

/-- `List.map` with the element index, modelling the per-item closure
`item => ({id: item.id || gen-..., ...})` whose synthesized identifier is
freshly sampled for each item. -/
def mapWithIdx (f : Nat → TrackData → SunoTask) : Nat → List TrackData → List SunoTask
  | _, [] => []
  | n, t :: ts => f n t :: mapWithIdx f (n + 1) ts

/-- Lines 344-351: the per-item conversion of a valid track to a `SunoTask`,
with `freshId` standing for the sampled `gen-Date.now-Math.random`
identifier used when `item.id` is falsy. -/
def mapTrack (freshId : String) (item : TrackData) : SunoTask :=
  { id := jsOrStr item.id freshId,
    status := "SUCCESS",
    audio_url := getAudioUrl item,
    image_url := getImageUrl item,
    title := some (jsOrStr item.title "Generated Track"),
    prompt := jsOr item.prompt item.metadataPrompt }

/-- `tracks.filter(t => getAudioUrl(t))`. -/
def validTracks (ts : List TrackData) : List TrackData :=
  ts.filter (fun t => truthy (getAudioUrl t))

/-- The fatal errors this `pollForMusic` can throw. -/
inductive PollErr where
  | repeatedHttp (status : Nat) (text : String)
  | repeatedCode (code : Nat) (msg : String)
  | successMissingUrls
  | successNoTracks
  | taskFailed (errorMessage : Option String)
  | timeout (lastKnownStatus : String)
deriving DecidableEq

/-- Outcome of one iteration of the loop body: continue with updated
`consecutiveErrors` / `lastKnownStatus`, return, or throw fatally. -/
inductive StepOut where
  | next (consecutiveErrors : Nat) (lastKnownStatus : String)
  | ret (tasks : List SunoTask)
  | fatal (e : PollErr)
deriving DecidableEq

/-- One iteration of the loop body of this `pollForMusic`, translated from
`geminiService.ts` lines 266-368.  `freshId n` is the identifier that would
be synthesized for the `n`-th valid track. -/
def step (c : Nat) (lastStatus : String) (freshId : Nat → String)
    (r : PollResponse) : StepOut :=
  match r with
  | .httpError status text =>
      if c + 1 ≥ 5 then .fatal (.repeatedHttp status text)
      else .next (c + 1) lastStatus
  | .body code msg data =>
      if code ≠ 200 then
        if c + 1 ≥ 5 then .fatal (.repeatedCode code msg)
        else .next (c + 1) lastStatus
      else
        match data with
        | none => .next 0 lastStatus
        | some d =>
          let status := statusOf d
          let tracks := extractTracks (resolveResp d.response) d.dataMember
          let valid := validTracks tracks
          if tracks.length > 0 ∧ valid.length > 0 then
            .ret (mapWithIdx (fun n t => mapTrack (freshId n) t) 0 valid)
          else if status = "SUCCESS" then
            if tracks.length > 0 then .fatal .successMissingUrls
            else .fatal .successNoTracks
          else if status = "FAILED" then
            .fatal (.taskFailed d.errorMessage)
          else
            .next 0 status

/-- Result of a whole run, with the number of attempts used. -/
inductive PollResult where
  | success (tasks : List SunoTask) (attempts : Nat)
  | failure (e : PollErr) (attempts : Nat)
deriving DecidableEq

/-- The `for` loop, fuel-indexed as in `Suno.go`; exhausted fuel is the
timeout `throw` carrying `lastKnownStatus`. -/
def go (resps : Nat → PollResponse) (freshId : Nat → String) :
    Nat → Nat → Nat → String → PollResult
  | 0, i, _, ls => .failure (.timeout ls) i
  | fuel + 1, i, c, ls =>
      match step c ls freshId (resps i) with
      | .next c2 ls2 => go resps freshId fuel (i + 1) c2 ls2
      | .ret tasks => .success tasks (i + 1)
      | .fatal e => .failure e (i + 1)

/-- `pollForMusic` of the schema-tolerant variant, as a function of the
response oracle and the fresh-identifier source. -/
def pollForMusic (resps : Nat → PollResponse) (freshId : Nat → String) : PollResult :=
  go resps freshId MAX_ATTEMPTS 0 0 "Initializing"

/-- Is the step outcome a continue-to-next-iteration? -/
def isNext : StepOut → Bool
  | .next _ _ => true
  | _ => false

end Gem

namespace UdioApi

/-! ### `udioService.ts` — `generateTrack` and `pollForTrack` -/

/-- One entry of `FeedResponse.data`. -/
structure FeedTrack where
  id : String
  audio_url : String
  status : String
deriving DecidableEq

/-- Outcome of one poll attempt at the HTTP layer: `!response.ok`, or a parsed
body with its `code` and optional `data` array (`res.data?.find(...)`). -/
inductive PollResponse where
  | httpError (status : Nat)
  | body (code : Nat) (data : Option (List FeedTrack))
deriving DecidableEq

/-- `const MAX_ATTEMPTS = 30`. -/
def MAX_ATTEMPTS : Nat := 30

/-- Outcome of one iteration of the `pollForTrack` loop body.  There is no
fatal outcome: the `catch` block in `udioService.ts` logs every error thrown
inside the `try` (including the `throw new Error("Udio generation failed.")`
on a FAILED status) and falls through to the next iteration without
rethrowing, so the only normal exit of an iteration is a `return` of the
audio URL. -/
inductive StepOut where
  | next
  | ret (audioUrl : String)
deriving DecidableEq

/-- One iteration of the `pollForTrack` loop body (lines 68-96). -/
def step (workId : String) (r : PollResponse) : StepOut :=
  match r with
  | .httpError _ => .next
  | .body _ data =>
      match (match data with
             | some l => l.find? (fun (t : FeedTrack) => t.id == workId)
             | none => none) with
      | some track =>
          if track.status == "SUCCESS" && track.audio_url != "" then
            .ret track.audio_url
          else
            -- a FAILED status throws here in the source, but the catch-all
            -- swallows that error and the loop continues
            .next
      | none => .next

/-- Result of a whole `pollForTrack` run. -/
inductive PollResult where
  | success (audioUrl : String) (attempts : Nat)
  | timeout (attempts : Nat)
deriving DecidableEq

/-- The `for` loop of `pollForTrack`, fuel-indexed; exhausted fuel is the
timeout `throw` after the loop. -/
def go (workId : String) (resps : Nat → PollResponse) : Nat → Nat → PollResult
  | 0, i => .timeout i
  | fuel + 1, i =>
      match step workId (resps i) with
      | .next => go workId resps fuel (i + 1)
      | .ret url => .success url (i + 1)

/-- `pollForTrack` of `udioService.ts`, as a function of the response
oracle. -/
def pollForTrack (workId : String) (resps : Nat → PollResponse) : PollResult :=
  go workId resps MAX_ATTEMPTS 0

/-- The distinct `throw` sites of `generateTrack`. -/
inductive GenErr where
  | apiKeyRequired
  | httpError (status : Nat) (text : String)
  | noTaskId
deriving DecidableEq

/-- The response to the `generateTrack` submission request: `!response.ok`,
or a parsed `GenerateResponse` body.  `workId` and `dataTaskId` are the
optional `data.workId` and `data.data?.task_id` fields (a `dataTaskId` of
`none` covers both a missing `data` member and a missing `task_id`). -/
inductive GenResponse where
  | httpError (status : Nat) (text : String)
  | body (code : Nat) (message : String) (workId : Option String)
      (dataTaskId : Option String)
deriving DecidableEq

/-- `generateTrack` of `udioService.ts` (lines 25-59), as a function of the
submission response.  Note the source never checks the business `code`
field; it extracts `data.workId || data.data?.task_id` and fails when that
is falsy. -/
def generateTrack (apiKey : String) (resp : GenResponse) : Except GenErr String :=
  if apiKey = "" then .error .apiKeyRequired
  else
    match resp with
    | .httpError status text => .error (.httpError status text)
    | .body _ _ workId dataTaskId =>
        let w := jsOr workId dataTaskId
        if truthy w then .ok (w.getD "") else .error .noTaskId

end UdioApi

namespace SunoGen

/-! ### `sunoService.ts` — `generateMusic` (job submission) -/

/-- The distinct `throw` sites of `generateMusic`. -/
inductive GenErr where
  | apiKeyRequired
  | requestFailed (status : Nat) (text : String)
  | businessError (code : Nat) (msg : String)
deriving DecidableEq

/-- The response to the `generateMusic` submission request: `!response.ok`,
or a parsed `GenerateResponse` body (whose `data.taskId` is a string per the
declared interface). -/
inductive GenResponse where
  | httpError (status : Nat) (text : String)
  | body (code : Nat) (msg : String) (taskId : String)
deriving DecidableEq

/-- `generateMusic` of `sunoService.ts` (lines 35-72), as a function of the
submission response. -/
def generateMusic (apiKey : String) (resp : GenResponse) : Except GenErr String :=
  if apiKey = "" then .error .apiKeyRequired
  else
    match resp with
    | .httpError status text => .error (.requestFailed status text)
    | .body code msg taskId =>
        if code ≠ 200 then .error (.businessError code msg)
        else .ok taskId

end SunoGen

/-! ### Concrete instances used by witnesses, counterexamples and the
bug-exhibiting runs -/

/-- A wav-endpoint response: HTTP 2xx, code 200, status SUCCESS, usable
audio URL. -/
def okRespS : Suno.PollResponse :=
  .body 200 "success"
    (some { taskId := "t1", response := some { audioWavUrl := "https://x/a.wav" },
            successFlag := some "SUCCESS" })

/-- A wav-endpoint response: code 200, status PENDING. -/
def pendRespS : Suno.PollResponse :=
  .body 200 "success" (some { taskId := "t1", successFlag := some "PENDING" })

/-- A wav-endpoint response: code 200, status SUCCESS, but no
`response.audioWavUrl`. -/
def snaRespS : Suno.PollResponse :=
  .body 200 "success" (some { taskId := "t1", successFlag := some "SUCCESS" })

/-- A transiently failing attempt: HTTP 500. -/
def httpErrRespS : Suno.PollResponse := .httpError 500 "server error"

/-- Four transient failures followed by well-formed PENDING responses. -/
def fourThenPendingS : Nat → Suno.PollResponse :=
  fun n => if n < 4 then httpErrRespS else pendRespS

/-- A wav-endpoint response reporting the terminal failure flag
`CREATE_TASK_FAILED` with an upstream error message. -/
def failRespS : Suno.PollResponse :=
  .body 200 "success"
    (some { taskId := "t1", successFlag := some "CREATE_TASK_FAILED",
            errorMessage := some "boom" })

/-- A track with a usable audio URL under the documented `audio_url` key. -/
def cexTrackG : Gem.TrackData :=
  { id := some "t1", audio_url := some "https://x/a.mp3" }

/-- `res.data` whose status is still `PENDING` but whose
`response.data` already contains a track with a usable audio URL. -/
def cexDataG : Gem.TaskInfoData :=
  { status := some "PENDING",
    response := some (.direct (.obj (some [cexTrackG]) none)) }

/-- A structurally valid poll response with non-terminal status `PENDING`
and an extractable valid track. -/
def cexRespG : Gem.PollResponse := .body 200 "ok" (some cexDataG)

/-- The task the schema-tolerant variant returns for `cexRespG`. -/
def cexTaskG : SunoTask :=
  { id := "t1", status := "SUCCESS", audio_url := some "https://x/a.mp3",
    title := some "Generated Track" }

/-- `res.data` with non-terminal status `QUEUED` and no track data. -/
def queuedDataG : Gem.TaskInfoData := { status := some "QUEUED" }

/-- `res.data` with status `PENDING` and no track data. -/
def pendDataG : Gem.TaskInfoData := { status := some "PENDING" }

/-- `res.data` with no status field at all. -/
def noStatusDataG : Gem.TaskInfoData := {}

/-- The task `sunoService.pollForMusic` returns for `okRespS`. -/
def okTaskS : SunoTask :=
  { id := "t1", status := "SUCCESS", audio_url := some "https://x/a.wav",
    title := some "Generated Track" }

/-- A structurally valid PENDING response with no track data. -/
def pendRespG : Gem.PollResponse := .body 200 "ok" (some pendDataG)

/-- `res.data` with terminal status `FAILED` and an error message. -/
def failDataG : Gem.TaskInfoData :=
  { status := some "FAILED", errorMessage := some "boom" }

/-- A structurally valid response with terminal status `FAILED`. -/
def failRespG : Gem.PollResponse := .body 200 "ok" (some failDataG)

/-- A valid track carrying both an id and a documented-key audio URL. -/
def trackG1 : Gem.TrackData :=
  { id := some "a", audio_url := some "https://x/1.mp3" }

/-- A track with no resolvable audio URL (to be filtered out). -/
def trackG2 : Gem.TrackData := { id := some "b", title := some "no audio yet" }

/-- A valid track with a camel-case audio URL and no id (an identifier is
synthesized for it). -/
def trackG3 : Gem.TrackData := { audioUrl := some "https://x/3.mp3" }

/-- `res.data` with status SUCCESS whose `response.data` holds the three
sample tracks. -/
def successDataG : Gem.TaskInfoData :=
  { status := some "SUCCESS",
    response := some (.direct (.obj (some [trackG1, trackG2, trackG3]) none)) }

/-- A structurally valid SUCCESS response with the three sample tracks. -/
def successRespG : Gem.PollResponse := .body 200 "ok" (some successDataG)

/-- A feed response whose entry for `w1` reports terminal status `FAILED`. -/
def failFeedU : UdioApi.PollResponse :=
  .body 200 (some [{ id := "w1", audio_url := "", status := "FAILED" }])

/-- A feed response whose entry for `w1` is still `PENDING`. -/
def pendFeedU : UdioApi.PollResponse :=
  .body 200 (some [{ id := "w1", audio_url := "", status := "PENDING" }])

/-! ### Helper lemmas -/

theorem truthy_iff (x : Option String) :
    truthy x = true ↔ ∃ s, x = some s ∧ s ≠ "" := by
  cases x with
  | none => simp [truthy]
  | some s => simp [truthy]

theorem jsOrStr_of_falsy {a : Option String} (h : truthy a = false) (b : String) :
    jsOrStr a b = b := by
  cases a with
  | none => rfl
  | some s =>
      have hs : s = "" := by simpa [truthy] using h
      simp [jsOrStr, hs]

theorem suno_usableUrl_ne_empty {d : Suno.WavData} {u : String}
    (h : Suno.usableUrl d = some u) : u ≠ "" := by
  unfold Suno.usableUrl at h
  cases hr : d.response with
  | none => simp [hr] at h
  | some r =>
      rw [hr] at h
      by_cases hu : r.audioWavUrl = ""
      · simp [hu] at h
      · simp only [if_neg hu, Option.some.injEq] at h
        exact h ▸ hu

theorem suno_step_transient_next {r : Suno.PollResponse}
    (ht : Suno.isTransient r = true) (i c : Nat) (lk : Option Suno.WavData)
    (hc : c + 1 < 5) :
    Suno.step i c lk r = .next (c + 1) lk := by
  cases r with
  | httpError s t => simp [Suno.step, Nat.not_le.mpr hc]
  | body code msg d =>
      simp only [Suno.isTransient, bne_iff_ne] at ht
      simp [Suno.step, ht, Nat.not_le.mpr hc]

theorem suno_step_transient_fatal {r : Suno.PollResponse}
    (ht : Suno.isTransient r = true) (i c : Nat) (lk : Option Suno.WavData)
    (hc : c + 1 ≥ 5) :
    ∃ e, Suno.step i c lk r = .fatal e ∧ Suno.isRepeatedErr e = true := by
  cases r with
  | httpError s t => exact ⟨.repeatedHttp s t, by simp [Suno.step, hc], rfl⟩
  | body code msg d =>
      simp only [Suno.isTransient, bne_iff_ne] at ht
      exact ⟨.repeatedCode code msg, by simp [Suno.step, ht, hc], rfl⟩

theorem suno_step_pending_next {r : Suno.PollResponse}
    (hp : Suno.isPending r = true) (i c : Nat) (lk : Option Suno.WavData) :
    Suno.step i c lk r = .next 0 (Suno.dataOf r) := by
  cases r with
  | httpError s t => simp [Suno.isPending] at hp
  | body code msg d =>
      cases d with
      | none => simp [Suno.isPending] at hp
      | some d =>
          simp only [Suno.isPending, Bool.and_eq_true, beq_iff_eq] at hp
          obtain ⟨hcode, hstat⟩ := hp
          simp [Suno.step, hcode, hstat, Suno.dataOf]

theorem suno_step_successNoAudio {r : Suno.PollResponse}
    (hs : Suno.isSuccessNoAudio r = true) (i c : Nat) (lk : Option Suno.WavData) :
    Suno.step i c lk r =
      if i < Suno.MAX_ATTEMPTS - 5 then .next 0 (Suno.dataOf r)
      else .fatal .completeNoAudio := by
  cases r with
  | httpError s t => simp [Suno.isSuccessNoAudio] at hs
  | body code msg d =>
      cases d with
      | none => simp [Suno.isSuccessNoAudio] at hs
      | some d =>
          simp only [Suno.isSuccessNoAudio, Bool.and_eq_true, beq_iff_eq,
            Option.isNone_iff_eq_none] at hs
          obtain ⟨⟨hcode, hstat⟩, hurl⟩ := hs
          simp [Suno.step, hcode, hstat, hurl, Suno.dataOf]

theorem suno_go_next {resps : Nat → Suno.PollResponse} {i c c2 : Nat}
    {lk lk2 : Option Suno.WavData}
    (h : Suno.step i c lk (resps i) = .next c2 lk2) (fuel : Nat) :
    Suno.go resps (fuel + 1) i c lk = Suno.go resps fuel (i + 1) c2 lk2 := by
  simp [Suno.go, h]

theorem suno_go_fatal {resps : Nat → Suno.PollResponse} {i c : Nat}
    {lk : Option Suno.WavData} {e : Suno.PollErr}
    (h : Suno.step i c lk (resps i) = .fatal e) (fuel : Nat) :
    Suno.go resps (fuel + 1) i c lk = .failure e (i + 1) := by
  simp [Suno.go, h]

theorem suno_go_successNoAudio_all {resps : Nat → Suno.PollResponse}
    (h : ∀ n, Suno.isSuccessNoAudio (resps n) = true) :
    ∀ fuel i c lk, i + fuel = 120 → i ≤ 115 →
      Suno.go resps fuel i c lk = .failure .completeNoAudio 116 := by
  intro fuel
  induction fuel with
  | zero => intro i c lk hif hi; omega
  | succ fuel ih =>
      intro i c lk hif hi
      have hstep := suno_step_successNoAudio (h i) i c lk
      by_cases hlt : i < Suno.MAX_ATTEMPTS - 5
      · rw [if_pos hlt] at hstep
        rw [suno_go_next hstep fuel]
        have hi115 : i < 115 := by simpa [Suno.MAX_ATTEMPTS] using hlt
        exact ih (i + 1) 0 (Suno.dataOf (resps i)) (by omega) (by omega)
      · rw [if_neg hlt] at hstep
        have h115 : i = 115 := by
          simp only [Suno.MAX_ATTEMPTS] at hlt
          omega
        rw [suno_go_fatal hstep fuel, h115]

theorem suno_go_pending_all {resps : Nat → Suno.PollResponse}
    (h : ∀ n, Suno.isPending (resps n) = true) :
    ∀ fuel i c lk, i + fuel = 120 → 1 ≤ fuel →
      Suno.go resps fuel i c lk =
        .failure (.timeout (Suno.dataOf (resps 119))) 120 := by
  intro fuel
  induction fuel with
  | zero => intro i c lk hif hfuel; omega
  | succ fuel ih =>
      intro i c lk hif hfuel
      have hstep := suno_step_pending_next (h i) i c lk
      rw [suno_go_next hstep fuel]
      rcases Nat.eq_zero_or_pos fuel with hz | hpos
      · subst hz
        have : i = 119 := by omega
        subst this
        rfl
      · exact ih (i + 1) 0 (Suno.dataOf (resps i)) (by omega) hpos

theorem suno_step_ret_inv {i c : Nat} {lk : Option Suno.WavData}
    {r : Suno.PollResponse} {ts : List SunoTask}
    (h : Suno.step i c lk r = .ret ts) :
    ts ≠ [] ∧ ∀ t ∈ ts, t.status = "SUCCESS" ∧
      ∃ u, t.audio_url = some u ∧ u ≠ "" := by
  cases r with
  | httpError s t =>
      simp only [Suno.step] at h
      split at h <;> simp at h
  | body code msg dOpt =>
      simp only [Suno.step] at h
      by_cases hcode : code ≠ 200
      · rw [if_pos hcode] at h
        split at h <;> simp at h
      · rw [if_neg hcode] at h
        cases dOpt with
        | none => simp at h
        | some d =>
            simp only at h
            by_cases hsucc : Suno.statusOf d = "SUCCESS"
            · rw [if_pos hsucc] at h
              split at h
              · rename_i url heq
                simp only [Suno.StepOut.ret.injEq] at h
                subst h
                refine ⟨by simp, ?_⟩
                intro t ht
                simp only [List.mem_singleton] at ht
                subst ht
                exact ⟨rfl, url, rfl, suno_usableUrl_ne_empty heq⟩
              · split at h <;> simp at h
            · rw [if_neg hsucc] at h
              split at h <;> simp at h

theorem suno_go_success_inv {resps : Nat → Suno.PollResponse} :
    ∀ fuel i c lk ts n, Suno.go resps fuel i c lk = .success ts n →
      ts ≠ [] ∧ ∀ t ∈ ts, t.status = "SUCCESS" ∧
        ∃ u, t.audio_url = some u ∧ u ≠ "" := by
  intro fuel
  induction fuel with
  | zero => intro i c lk ts n h; simp [Suno.go] at h
  | succ fuel ih =>
      intro i c lk ts n h
      unfold Suno.go at h
      rcases hstep : Suno.step i c lk (resps i) with ⟨c2, lk2⟩ | ts2 | e <;>
        rw [hstep] at h
      · exact ih (i + 1) c2 lk2 ts n h
      · simp only [Suno.PollResult.success.injEq] at h
        exact h.1 ▸ suno_step_ret_inv hstep
      · simp at h

theorem gem_mem_mapWithIdx {f : Nat → Gem.TrackData → SunoTask} {y : SunoTask} :
    ∀ {n : Nat} {l : List Gem.TrackData}, y ∈ Gem.mapWithIdx f n l →
      ∃ m x, x ∈ l ∧ y = f m x := by
  intro n l
  induction l generalizing n with
  | nil => intro h; simp [Gem.mapWithIdx] at h
  | cons t ts ih =>
      intro h
      simp only [Gem.mapWithIdx, List.mem_cons] at h
      rcases h with h | h
      · exact ⟨n, t, List.mem_cons_self .., h⟩
      · obtain ⟨m, x, hx, hy⟩ := ih h
        exact ⟨m, x, List.mem_cons_of_mem _ hx, hy⟩

theorem gem_step_body_eq (c : Nat) (ls : String) (fid : Nat → String)
    (msg : String) (d : Gem.TaskInfoData) :
    Gem.step c ls fid (.body 200 msg (some d)) =
      (if (Gem.extractTracks (Gem.resolveResp d.response) d.dataMember).length > 0
          ∧ (Gem.validTracks
              (Gem.extractTracks (Gem.resolveResp d.response) d.dataMember)).length > 0
       then .ret (Gem.mapWithIdx (fun n t => Gem.mapTrack (fid n) t) 0
              (Gem.validTracks
                (Gem.extractTracks (Gem.resolveResp d.response) d.dataMember)))
       else if Gem.statusOf d = "SUCCESS" then
         (if (Gem.extractTracks (Gem.resolveResp d.response) d.dataMember).length > 0
          then .fatal .successMissingUrls
          else .fatal .successNoTracks)
       else if Gem.statusOf d = "FAILED" then .fatal (.taskFailed d.errorMessage)
       else .next 0 (Gem.statusOf d)) := rfl

theorem gem_step_ret_of_valid {d : Gem.TaskInfoData} {ts vs : List Gem.TrackData}
    (hts : ts = Gem.extractTracks (Gem.resolveResp d.response) d.dataMember)
    (hvs : vs = Gem.validTracks ts) (hne : vs ≠ [])
    (c : Nat) (ls : String) (fid : Nat → String) (msg : String) :
    Gem.step c ls fid (.body 200 msg (some d)) =
      .ret (Gem.mapWithIdx (fun n t => Gem.mapTrack (fid n) t) 0 vs) := by
  subst hvs
  subst hts
  have hvlen : 0 < (Gem.validTracks
      (Gem.extractTracks (Gem.resolveResp d.response) d.dataMember)).length :=
    List.length_pos.mpr hne
  have hle : (Gem.validTracks
      (Gem.extractTracks (Gem.resolveResp d.response) d.dataMember)).length ≤
      (Gem.extractTracks (Gem.resolveResp d.response) d.dataMember).length :=
    List.length_filter_le _ _
  rw [gem_step_body_eq, if_pos ⟨by omega, hvlen⟩]

theorem gem_step_ret_inv {c : Nat} {ls : String} {fid : Nat → String}
    {r : Gem.PollResponse} {ts : List SunoTask}
    (h : Gem.step c ls fid r = .ret ts) :
    ∀ t ∈ ts, t.status = "SUCCESS" ∧ ∃ u, t.audio_url = some u ∧ u ≠ "" := by
  cases r with
  | httpError s t =>
      simp only [Gem.step] at h
      split at h <;> simp at h
  | body code msg dOpt =>
      simp only [Gem.step] at h
      by_cases hcode : code ≠ 200
      · rw [if_pos hcode] at h
        split at h <;> simp at h
      · rw [if_neg hcode] at h
        cases dOpt with
        | none => simp at h
        | some d =>
            simp only at h
            split at h
            · simp only [Gem.StepOut.ret.injEq] at h
              subst h
              intro t ht
              obtain ⟨m, x, hx, hy⟩ := gem_mem_mapWithIdx ht
              subst hy
              have hxv : truthy (Gem.getAudioUrl x) = true := by
                have := List.mem_filter.mp hx
                simpa using this.2
              obtain ⟨u, hu, hune⟩ := (truthy_iff _).mp hxv
              exact ⟨rfl, u, by simpa [Gem.mapTrack] using hu, hune⟩
            · split at h
              · split at h <;> simp at h
              · split at h <;> simp at h

theorem gem_go_success_inv {resps : Nat → Gem.PollResponse} {fid : Nat → String} :
    ∀ fuel i c ls ts n, Gem.go resps fid fuel i c ls = .success ts n →
      ∀ t ∈ ts, t.status = "SUCCESS" ∧ ∃ u, t.audio_url = some u ∧ u ≠ "" := by
  intro fuel
  induction fuel with
  | zero => intro i c ls ts n h; simp [Gem.go] at h
  | succ fuel ih =>
      intro i c ls ts n h
      unfold Gem.go at h
      rcases hstep : Gem.step c ls fid (resps i) with ⟨c2, ls2⟩ | ts2 | e <;>
        rw [hstep] at h
      · exact ih (i + 1) c2 ls2 ts n h
      · simp only [Gem.PollResult.success.injEq] at h
        exact h.1 ▸ gem_step_ret_inv hstep
      · simp at h

theorem suno_isPending_dataOf {r : Suno.PollResponse}
    (hp : Suno.isPending r = true) :
    ∃ d, Suno.dataOf r = some d ∧ Suno.statusOf d = "PENDING" := by
  cases r with
  | httpError s t => simp [Suno.isPending] at hp
  | body code msg dOpt =>
      cases dOpt with
      | none => simp [Suno.isPending] at hp
      | some d =>
          simp only [Suno.isPending, Bool.and_eq_true, beq_iff_eq] at hp
          exact ⟨d, rfl, hp.2⟩

/-! ### Claim theorems -/

/-- C1: if a poll response reports SUCCESS but no usable non-empty audio URL
can be extracted, the polling functions never return an empty or URL-less
success.  `sunoService.pollForMusic` keeps polling only while more than 5 of
its 120 attempts remain (it rejects with the complete-but-no-audio error on
attempt 116 when every response is SUCCESS-without-audio), and the
schema-tolerant variant rejects immediately within the same step; any
successful return is a non-empty list of tracks with non-empty URLs. -/
theorem c1_success_without_audio_is_rejected :
    (∀ resps tasks n, Suno.pollForMusic resps = .success tasks n →
        tasks ≠ [] ∧ ∀ t ∈ tasks, ∃ u, t.audio_url = some u ∧ u ≠ "") ∧
    (∀ resps, (∀ n, Suno.isSuccessNoAudio (resps n) = true) →
        Suno.pollForMusic resps = .failure .completeNoAudio 116) ∧
    (∀ (c : Nat) (ls : String) (fid : Nat → String) (msg : String)
        (d : Gem.TaskInfoData),
        Gem.statusOf d = "SUCCESS" →
        Gem.validTracks
          (Gem.extractTracks (Gem.resolveResp d.response) d.dataMember) = [] →
        ∃ e, Gem.step c ls fid (.body 200 msg (some d)) = .fatal e ∧
          (e = .successMissingUrls ∨ e = .successNoTracks)) := by
  refine ⟨?_, ?_, ?_⟩
  · intro resps tasks n h
    have hinv := suno_go_success_inv 120 0 0 none tasks n h
    exact ⟨hinv.1, fun t ht => (hinv.2 t ht).2⟩
  · intro resps h
    exact suno_go_successNoAudio_all h 120 0 0 none rfl (by omega)
  · intro c ls fid msg d hsucc hvalid
    rw [gem_step_body_eq, if_neg (by simp [hvalid]), if_pos hsucc]
    by_cases ht :
        (Gem.extractTracks (Gem.resolveResp d.response) d.dataMember).length > 0
    · exact ⟨.successMissingUrls, by rw [if_pos ht], Or.inl rfl⟩
    · exact ⟨.successNoTracks, by rw [if_neg ht], Or.inr rfl⟩

/-- C1 witness: a constant SUCCESS-without-audio stream makes
`sunoService.pollForMusic` reject with the complete-but-no-audio error at
attempt 116. -/
theorem c1_success_without_audio_is_rejected_witness :
    Suno.pollForMusic (fun _ => snaRespS) = .failure .completeNoAudio 116 :=
  c1_success_without_audio_is_rejected.2.1 (fun _ => snaRespS) (fun _ => rfl)

/-- C2: five consecutive transient failures (non-2xx HTTP responses or
business codes other than 200) make `sunoService.pollForMusic` reject with a
repeated-upstream-failure error after exactly 5 attempts, while four
transient failures followed by one well-formed PENDING response leave the
loop running with the consecutive-error counter reset to 0. -/
theorem c2_error_budget_and_counter_reset :
    (∀ resps, (∀ n, n < 5 → Suno.isTransient (resps n) = true) →
        Suno.isRepeatedFailure (Suno.pollForMusic resps) = true ∧
        Suno.attemptsOf (Suno.pollForMusic resps) = 5) ∧
    (∀ resps, (∀ n, n < 4 → Suno.isTransient (resps n) = true) →
        Suno.isPending (resps 4) = true →
        Suno.pollForMusic resps =
          Suno.go resps 115 5 0 (Suno.dataOf (resps 4))) := by
  constructor
  · intro resps h
    have h0 := suno_step_transient_next (h 0 (by omega)) 0 0 none (by omega)
    have h1 := suno_step_transient_next (h 1 (by omega)) 1 1 none (by omega)
    have h2 := suno_step_transient_next (h 2 (by omega)) 2 2 none (by omega)
    have h3 := suno_step_transient_next (h 3 (by omega)) 3 3 none (by omega)
    obtain ⟨e, he, hrep⟩ :=
      suno_step_transient_fatal (h 4 (by omega)) 4 4 none (by omega)
    have hrun : Suno.pollForMusic resps = .failure e 5 := by
      show Suno.go resps (119 + 1) 0 0 none = _
      rw [suno_go_next h0 119]
      show Suno.go resps (118 + 1) 1 1 none = _
      rw [suno_go_next h1 118]
      show Suno.go resps (117 + 1) 2 2 none = _
      rw [suno_go_next h2 117]
      show Suno.go resps (116 + 1) 3 3 none = _
      rw [suno_go_next h3 116]
      show Suno.go resps (115 + 1) 4 4 none = _
      rw [suno_go_fatal he 115]
    rw [hrun]
    exact ⟨hrep, rfl⟩
  · intro resps h hp
    have h0 := suno_step_transient_next (h 0 (by omega)) 0 0 none (by omega)
    have h1 := suno_step_transient_next (h 1 (by omega)) 1 1 none (by omega)
    have h2 := suno_step_transient_next (h 2 (by omega)) 2 2 none (by omega)
    have h3 := suno_step_transient_next (h 3 (by omega)) 3 3 none (by omega)
    have h4 := suno_step_pending_next hp 4 4 none
    show Suno.go resps (119 + 1) 0 0 none = _
    rw [suno_go_next h0 119]
    show Suno.go resps (118 + 1) 1 1 none = _
    rw [suno_go_next h1 118]
    show Suno.go resps (117 + 1) 2 2 none = _
    rw [suno_go_next h2 117]
    show Suno.go resps (116 + 1) 3 3 none = _
    rw [suno_go_next h3 116]
    show Suno.go resps (115 + 1) 4 4 none = _
    rw [suno_go_next h4 115]

/-- C2 witness: a constant HTTP-500 stream is rejected after exactly 5
attempts, and four HTTP-500 responses followed by PENDING responses leave
the loop running with the counter reset. -/
theorem c2_error_budget_and_counter_reset_witness :
    (Suno.isRepeatedFailure (Suno.pollForMusic (fun _ => httpErrRespS)) = true ∧
     Suno.attemptsOf (Suno.pollForMusic (fun _ => httpErrRespS)) = 5) ∧
    Suno.pollForMusic fourThenPendingS =
      Suno.go fourThenPendingS 115 5 0 (Suno.dataOf (fourThenPendingS 4)) := by
  constructor
  · exact c2_error_budget_and_counter_reset.1 (fun _ => httpErrRespS)
      (fun n _ => rfl)
  · exact c2_error_budget_and_counter_reset.2 fourThenPendingS
      (fun n hn => by simp only [fourThenPendingS]; rw [if_pos hn]; rfl) rfl

/-- C3: the source intends every terminal failure status to reject within
the same attempt, and `sunoService.pollForMusic` (CREATE_TASK_FAILED flag)
and the schema-tolerant variant (FAILED status) do exactly that, carrying
the upstream error message; but `udioService.pollForTrack` does not: its
catch-all swallows the generation-failed error it just threw, so a feed
reporting FAILED on every attempt polls all 30 attempts and then times out
instead of rejecting within one attempt. -/
theorem c3_terminal_failure_rejection :
    Suno.step 0 0 none failRespS = .fatal (.taskFailed (some "boom")) ∧
    Gem.step 0 "Initializing" (fun _ => "gen-0") failRespG =
      .fatal (.taskFailed (some "boom")) ∧
    UdioApi.pollForTrack "w1" (fun _ => failFeedU) = .timeout 30 :=
  ⟨rfl, rfl, rfl⟩

/-- C4: with a status endpoint that always returns a well-formed PENDING
response, `sunoService.pollForMusic` performs exactly its 120 attempts and
then rejects with a timeout error whose message carries the last known
status; the 60-attempt schema-tolerant variant and the 30-attempt
`udioService.pollForTrack` likewise time out after exactly their budgets. -/
theorem c4_timeout_after_exact_budget :
    (∀ resps, (∀ n, Suno.isPending (resps n) = true) →
        Suno.pollForMusic resps =
          .failure (.timeout (Suno.dataOf (resps 119))) 120 ∧
        Suno.isTimeoutPending (Suno.pollForMusic resps) = true ∧
        Suno.attemptsOf (Suno.pollForMusic resps) = 120 ∧
        ∃ d, Suno.dataOf (resps 119) = some d ∧
          Suno.timeoutMessage (some d) =
            "Timeout waiting for music generation after " ++
              toString Suno.MAX_ATTEMPTS ++ " attempts (600 seconds)." ++
              (" Last known status: " ++
                ("PENDING" ++ ("." ++ Suno.timeoutErrPart d)))) ∧
    Gem.pollForMusic (fun _ => pendRespG) (fun _ => "gen-0") =
      .failure (.timeout "PENDING") 60 ∧
    UdioApi.pollForTrack "w1" (fun _ => pendFeedU) = .timeout 30 := by
  refine ⟨?_, rfl, rfl⟩
  intro resps h
  have main := suno_go_pending_all h 120 0 0 none rfl (by omega)
  obtain ⟨d, hd, hstat⟩ := suno_isPending_dataOf (h 119)
  refine ⟨main, ?_, ?_, d, hd, ?_⟩
  · rw [show Suno.pollForMusic resps = _ from main, hd]
    simp [Suno.isTimeoutPending, hstat]
  · rw [show Suno.pollForMusic resps = _ from main]
    rfl
  · simp only [Suno.timeoutMessage]
    rw [hstat]

/-- C4 witness: the constant-PENDING stream times out at exactly 120
attempts with the PENDING diagnostic. -/
theorem c4_timeout_after_exact_budget_witness :
    Suno.pollForMusic (fun _ => pendRespS) =
      .failure (.timeout (Suno.dataOf (pendRespS))) 120 ∧
    Suno.isTimeoutPending (Suno.pollForMusic (fun _ => pendRespS)) = true ∧
    Suno.attemptsOf (Suno.pollForMusic (fun _ => pendRespS)) = 120 ∧
    ∃ d, Suno.dataOf (pendRespS) = some d ∧
      Suno.timeoutMessage (some d) =
        "Timeout waiting for music generation after " ++
          toString Suno.MAX_ATTEMPTS ++ " attempts (600 seconds)." ++
          (" Last known status: " ++
            ("PENDING" ++ ("." ++ Suno.timeoutErrPart d))) :=
  (c4_timeout_after_exact_budget.1 (fun _ => pendRespS) (fun _ => rfl))

/-- C5: track extraction in the schema-tolerant variant tries the candidate
locations in a fixed preference order — `data.response.data` as an array
first, then `data.response` itself as a bare array, then `data.data`, then
`data.response.clips` — uses exactly the first structurally matching
location and never merges several, and a JSON-encoded string in
`data.response` is parsed before those locations are tried. -/
theorem c5_extraction_preference_order :
    (∀ v dd, Gem.extractTracks (Gem.resolveResp (some (.strEnc (some v)))) dd =
        Gem.extractTracks v dd) ∧
    Gem.resolveResp (some (.strEnc none)) = .scalar ∧
    (∀ ts clips dd, Gem.extractTracks (.obj (some ts) clips) dd = ts) ∧
    (∀ ts dd, Gem.extractTracks (.arr ts) dd = ts) ∧
    (∀ clips ts, Gem.extractTracks (.obj none clips) (some ts) = ts) ∧
    (∀ ts, Gem.extractTracks .scalar (some ts) = ts) ∧
    (∀ cl, Gem.extractTracks (.obj none (some cl)) none = cl) ∧
    Gem.extractTracks .scalar none = [] ∧
    (∀ resp dd, Gem.extractTracks resp dd = [] ∨
        Gem.respDataMember resp = some (Gem.extractTracks resp dd) ∨
        Gem.respAsArr resp = some (Gem.extractTracks resp dd) ∨
        dd = some (Gem.extractTracks resp dd) ∨
        Gem.respClips resp = some (Gem.extractTracks resp dd)) := by
  refine ⟨?_, rfl, ?_, fun ts dd => rfl, ?_, fun ts => rfl, fun cl => rfl, rfl, ?_⟩
  · intro v dd; rfl
  · intro ts clips dd; rfl
  · intro clips ts
    cases clips <;> rfl
  · intro resp dd
    cases resp with
    | scalar =>
        cases dd with
        | none => exact Or.inl rfl
        | some ts => exact Or.inr (Or.inr (Or.inr (Or.inl rfl)))
    | arr ts => exact Or.inr (Or.inr (Or.inl rfl))
    | obj dm cl =>
        cases dm with
        | some ts => exact Or.inr (Or.inl rfl)
        | none =>
            cases dd with
            | some ts => exact Or.inr (Or.inr (Or.inr (Or.inl rfl)))
            | none =>
                cases cl with
                | some ts => exact Or.inr (Or.inr (Or.inr (Or.inr rfl)))
                | none => exact Or.inl rfl

/-- C6 counterexample: a structurally valid response whose status is the
non-terminal `PENDING` — not a recognized terminal value — but which carries
an extractable track with a usable audio URL makes the schema-tolerant loop
return the tracks on that very attempt instead of continuing to the next
iteration, so the claim as stated fails at this input. -/
theorem c6_counterexample_nonterminal_with_tracks_returns :
    Gem.statusOf cexDataG = "PENDING" ∧
    Gem.isNext (Gem.step 0 "Initializing" (fun _ => "gen-0") cexRespG) = false ∧
    Gem.step 0 "Initializing" (fun _ => "gen-0") cexRespG = .ret [cexTaskG] :=
  ⟨rfl, rfl, rfl⟩

/-- C6 (amended): for every structurally valid poll response (HTTP 2xx and
business code 200) whose status string is not a recognized terminal value
and from which no track with a usable audio URL is extracted, the loop
treats it as non-terminal: a missing status defaults to UNKNOWN, no error is
raised on that attempt, and polling continues to the next iteration (when
usable tracks are extracted the function instead returns them
immediately). -/
theorem c6_unknown_status_is_nonterminal :
    (∀ d : Gem.TaskInfoData, d.status = none → Gem.statusOf d = "UNKNOWN") ∧
    (∀ (c : Nat) (ls : String) (fid : Nat → String) (msg : String)
        (d : Gem.TaskInfoData),
        Gem.statusOf d ≠ "SUCCESS" → Gem.statusOf d ≠ "FAILED" →
        Gem.validTracks
          (Gem.extractTracks (Gem.resolveResp d.response) d.dataMember) = [] →
        Gem.step c ls fid (.body 200 msg (some d)) = .next 0 (Gem.statusOf d)) := by
  constructor
  · intro d h
    simp only [Gem.statusOf, h]
    rfl
  · intro c ls fid msg d hsucc hfail hvalid
    rw [gem_step_body_eq, if_neg (by simp [hvalid]), if_neg hsucc, if_neg hfail]

/-- C6 witness: an unrecognized `QUEUED` status with no track data continues
to the next iteration with the counter reset, and a missing status
normalizes to UNKNOWN. -/
theorem c6_unknown_status_is_nonterminal_witness :
    Gem.statusOf noStatusDataG = "UNKNOWN" ∧
    Gem.step 3 "Initializing" (fun _ => "gen-0") (.body 200 "ok" (some queuedDataG)) =
      .next 0 (Gem.statusOf queuedDataG) :=
  ⟨c6_unknown_status_is_nonterminal.1 noStatusDataG rfl,
   c6_unknown_status_is_nonterminal.2 3 "Initializing" (fun _ => "gen-0") "ok"
     queuedDataG (by decide) (by decide) rfl⟩

/-- C7: result extraction keeps exactly the entries with a resolvable
non-empty audio URL (across the accepted field-name variants), preserves the
upstream order (the kept list is a sublist), synthesizes an identifier for
every entry whose own id is missing or empty and keeps a present non-empty
id, and on a SUCCESS response with at least one valid track the loop returns
the mapped list within that same attempt. -/
theorem c7_result_extraction_contract :
    ∀ (c : Nat) (ls : String) (fid : Nat → String) (msg : String)
      (d : Gem.TaskInfoData) (ts vs : List Gem.TrackData),
      ts = Gem.extractTracks (Gem.resolveResp d.response) d.dataMember →
      vs = Gem.validTracks ts →
      Gem.statusOf d = "SUCCESS" →
      vs ≠ [] →
      Gem.step c ls fid (.body 200 msg (some d)) =
        .ret (Gem.mapWithIdx (fun n t => Gem.mapTrack (fid n) t) 0 vs) ∧
      vs.Sublist ts ∧
      (∀ t, t ∈ vs ↔ t ∈ ts ∧ truthy (Gem.getAudioUrl t) = true) ∧
      (∀ (f : String) (t : Gem.TrackData), truthy t.id = false →
        (Gem.mapTrack f t).id = f) ∧
      (∀ (f : String) (t : Gem.TrackData) (s : String), t.id = some s → s ≠ "" →
        (Gem.mapTrack f t).id = s) := by
  intro c ls fid msg d ts vs hts hvs hsucc hne
  refine ⟨gem_step_ret_of_valid hts hvs hne c ls fid msg, ?_, ?_, ?_, ?_⟩
  · rw [hvs]
    exact List.filter_sublist ts
  · intro t
    rw [hvs]
    simp only [Gem.validTracks]
    exact List.mem_filter
  · intro f t h
    exact jsOrStr_of_falsy h f
  · intro f t s hid hs
    show jsOrStr t.id f = s
    rw [hid]
    simp [jsOrStr, hs]

/-- C7 witness: of three upstream tracks — one with a documented-key URL and
an id, one with no audio URL, one with a camel-case URL and no id — the loop
returns exactly the first and third in order, the third receiving the
synthesized identifier. -/
theorem c7_result_extraction_contract_witness :
    Gem.step 0 "Initializing" (fun _ => "gen-7") (.body 200 "ok" (some successDataG)) =
      .ret [{ id := "a", status := "SUCCESS", audio_url := some "https://x/1.mp3",
              title := some "Generated Track" },
            { id := "gen-7", status := "SUCCESS", audio_url := some "https://x/3.mp3",
              title := some "Generated Track" }] :=
  ((c7_result_extraction_contract 0 "Initializing" (fun _ => "gen-7") "ok"
      successDataG _ _ rfl rfl rfl (by decide)).1).trans rfl

/-- C8: submission with an empty credential fails immediately with the
configuration error; with a non-empty credential and an HTTP-success
business-success payload, `udioService.generateTrack` returns the identifier
extracted under the accepted field names (`workId` first, then
`data.task_id`) and fails with the missing-identifier error exactly when no
accepted field holds a non-empty identifier, and `sunoService.generateMusic`
returns `data.taskId` on a code-200 payload. -/
theorem c8_submission_identifier_extraction :
    (∀ r, UdioApi.generateTrack "" r = .error .apiKeyRequired) ∧
    (∀ r, SunoGen.generateMusic "" r = .error .apiKeyRequired) ∧
    (∀ (k : String) (c : Nat) (m : String) (w dt : Option String) (w2 : String),
        k ≠ "" → jsOr w dt = some w2 → w2 ≠ "" →
        UdioApi.generateTrack k (.body c m w dt) = .ok w2) ∧
    (∀ (k : String) (c : Nat) (m : String) (w dt : Option String),
        k ≠ "" → truthy (jsOr w dt) = false →
        UdioApi.generateTrack k (.body c m w dt) = .error .noTaskId) ∧
    (∀ (k a : String) (dt : Option String) (c : Nat) (m : String),
        k ≠ "" → a ≠ "" →
        UdioApi.generateTrack k (.body c m (some a) dt) = .ok a) ∧
    (∀ (k m tid : String), k ≠ "" →
        SunoGen.generateMusic k (.body 200 m tid) = .ok tid) := by
  refine ⟨fun r => rfl, fun r => rfl, ?_, ?_, ?_, ?_⟩
  · intro k c m w dt w2 hk hw hw2
    simp [UdioApi.generateTrack, hk, hw, truthy, hw2]
  · intro k c m w dt hk hfalsy
    simp [UdioApi.generateTrack, hk, hfalsy]
  · intro k a dt c m hk ha
    simp [UdioApi.generateTrack, hk, jsOr, truthy, ha]
  · intro k m tid hk
    simp [SunoGen.generateMusic, hk]

/-- C8 witness: concrete submissions — empty key fails, `workId` wins over
`data.task_id`, an empty `workId` falls back to `data.task_id`, no
identifier under any accepted name fails, and a code-200 suno payload
returns its `taskId`. -/
theorem c8_submission_identifier_extraction_witness :
    UdioApi.generateTrack "" (.body 200 "ok" (some "w9") none) =
      .error .apiKeyRequired ∧
    UdioApi.generateTrack "key" (.body 200 "ok" (some "w9") (some "t7")) = .ok "w9" ∧
    UdioApi.generateTrack "key" (.body 200 "ok" (some "") (some "t7")) = .ok "t7" ∧
    UdioApi.generateTrack "key" (.body 200 "ok" none (some "")) =
      .error .noTaskId ∧
    SunoGen.generateMusic "key" (.body 200 "ok" "tid") = .ok "tid" :=
  ⟨c8_submission_identifier_extraction.1 _,
   c8_submission_identifier_extraction.2.2.1 "key" 200 "ok" (some "w9") (some "t7")
     "w9" (by decide) rfl (by decide),
   c8_submission_identifier_extraction.2.2.1 "key" 200 "ok" (some "") (some "t7")
     "t7" (by decide) rfl (by decide),
   c8_submission_identifier_extraction.2.2.2.1 "key" 200 "ok" none (some "")
     (by decide) rfl,
   c8_submission_identifier_extraction.2.2.2.2.2 "key" "ok" "tid" (by decide)⟩

/-- C9: in the schema-tolerant variant, whenever the extracted track list
contains a track with a usable audio URL, the step returns the mapped valid
tracks on that attempt with no hypothesis whatsoever on the reported status
— valid-track extraction is checked before the status is consulted, so a
successful return does not imply a terminal SUCCESS status was observed. -/
theorem c9_valid_tracks_returned_before_status_check :
    ∀ (c : Nat) (ls : String) (fid : Nat → String) (msg : String)
      (d : Gem.TaskInfoData) (ts vs : List Gem.TrackData),
      ts = Gem.extractTracks (Gem.resolveResp d.response) d.dataMember →
      vs = Gem.validTracks ts → vs ≠ [] →
      Gem.step c ls fid (.body 200 msg (some d)) =
        .ret (Gem.mapWithIdx (fun n t => Gem.mapTrack (fid n) t) 0 vs) :=
  fun c ls fid msg d ts vs hts hvs hne =>
    gem_step_ret_of_valid hts hvs hne c ls fid msg

/-- C9 witness: a response whose status is still `PENDING` but whose
`response.data` holds a usable track returns that track on the same
attempt. -/
theorem c9_valid_tracks_returned_before_status_check_witness :
    Gem.step 0 "Initializing" (fun _ => "gen-0") (.body 200 "ok" (some cexDataG)) =
      .ret (Gem.mapWithIdx (fun n t => Gem.mapTrack ((fun (_ : Nat) => "gen-0") n) t) 0
        (Gem.validTracks
          (Gem.extractTracks (Gem.resolveResp cexDataG.response) cexDataG.dataMember))) :=
  c9_valid_tracks_returned_before_status_check 0 "Initializing" (fun _ => "gen-0")
    "ok" cexDataG _ _ rfl rfl (by decide)

/-- C10: every track in a list returned by a successful run of either
`sunoService.pollForMusic` or the schema-tolerant variant has status
`SUCCESS` and a non-empty `audio_url`. -/
theorem c10_returned_tracks_have_success_and_urls :
    (∀ resps tasks n, Suno.pollForMusic resps = .success tasks n →
        ∀ t ∈ tasks, t.status = "SUCCESS" ∧ ∃ u, t.audio_url = some u ∧ u ≠ "") ∧
    (∀ resps fid tasks n, Gem.pollForMusic resps fid = .success tasks n →
        ∀ t ∈ tasks, t.status = "SUCCESS" ∧ ∃ u, t.audio_url = some u ∧ u ≠ "") := by
  constructor
  · intro resps tasks n h
    exact (suno_go_success_inv 120 0 0 none tasks n h).2
  · intro resps fid tasks n h
    exact gem_go_success_inv 60 0 0 "Initializing" tasks n h

/-- C10 witness: the single track returned for a first-attempt wav SUCCESS
response has status SUCCESS and a non-empty URL. -/
theorem c10_returned_tracks_have_success_and_urls_witness :
    okTaskS.status = "SUCCESS" ∧ ∃ u, okTaskS.audio_url = some u ∧ u ≠ "" :=
  c10_returned_tracks_have_success_and_urls.1 (fun _ => okRespS) [okTaskS] 1 rfl
    okTaskS (List.mem_singleton.mpr rfl)
